import Mathlib

/-!
# Verification of the rating-app data layer and analytics (src/app.py)

Shallow embedding of the data layer and analytics computations of the
Streamlit rating application.  The embedding models:

* the persisted CSV file (`CsvFile`): a header row plus one raw record per
  rating; string cells are stored verbatim, the `Scale` cell is stored as the
  integer it prints as (the app only ever writes integer literals, and
  integer print/parse round-trips);
* the in-memory pandas `DataFrame` (`DataFrame`): column list plus rows; a
  textual cell read from CSV is `NaN` when the cell was empty, which we model
  with `Option String` for the `Note` column (`none` = `NaN`).  `pd.read_csv`
  turns an empty cell — and every other entry of its default NA-token list
  (`NA`, `N/A`, `null`, `None`, `NaN`, ...), reproduced below in
  `naTokens` — into `NaN`, while both `NaN` and the empty string are
  written back by `to_csv` as an empty cell; this asymmetry is the heart of
  several claims.  One pandas behaviour is not representable in this
  string-valued row model: per-column type inference, by which a textual
  column whose every non-missing cell parses as a number or boolean
  reloads as numbers or booleans instead of strings.  Every round-trip
  theorem below therefore restricts its tables with the `keptAsText` /
  `dateShaped` / `rowStable` / `fileStable` guards, which force each
  written textual cell to be one that `pd.read_csv` keeps as verbatim text
  in any column context, so that on all quantified instances the model and
  the program agree cell for cell.  The model further covers files in the
  shape this application writes (integer `Scale` cells, which round-trip
  faithfully).
* `load_data` / `save_data` (src/app.py lines 17-26), the submit branch of
  `input_page` (lines 60-81), and the analytics pipeline of `analytics_page`
  (sort by date, filter by selected names, per-name mean/max, CSV export).

Dates are modelled by their serialized `YYYY-MM-DD` strings; on these,
lexicographic string order coincides with chronological order, so
`pd.to_datetime` followed by `sort_values` is modelled as sorting by the
date string.  `sort_values` with its default quicksort kind does not fix the
relative order of rows with equal dates; the model uses a stable insertion
sort, and no theorem below about the sorted table depends on the order
chosen among equal dates.
-/

namespace RatingApp

/-- The fixed column set of the table (src/app.py line 22). -/
def columns : List String := ["Name", "Date", "Scale", "Note"]

/-- One in-memory row of the pandas DataFrame.  `note = none` models a `NaN`
cell (missing value); `note = some s` models the Python string `s`, which may
be empty (`some ""`) for a freshly submitted form with an empty notes box. -/
structure Row where
  name : String
  date : String
  scale : Int
  note : Option String
deriving DecidableEq, Repr

/-- One raw record of the persisted CSV file: the textual cells as written,
with `Scale` kept as the integer its cell prints as. -/
structure CsvRecord where
  name : String
  date : String
  scale : Int
  note : String
deriving DecidableEq, Repr

/-- The persisted CSV file: header row plus records. -/
structure CsvFile where
  header : List String
  records : List CsvRecord
deriving DecidableEq, Repr

/-- The in-memory pandas DataFrame: its columns and its rows. -/
structure DataFrame where
  cols : List String
  rows : List Row
deriving DecidableEq, Repr

/-- The state of external storage: `none` when `user_ratings.csv` does not
exist, `some f` when it holds the CSV file `f`. -/
abbrev FileState := Option CsvFile

/-- The default NA tokens of `pd.read_csv` (its `na_values` default, with
`keep_default_na=True` as in src/app.py line 20): a cell holding exactly one
of these strings is read as `NaN`. -/
def naTokens : List String :=
  ["", "#N/A", "#N/A N/A", "#NA", "-1.#IND", "-1.#QNAN", "-NaN", "-nan",
   "1.#IND", "1.#QNAN", "<NA>", "N/A", "NA", "NULL", "NaN", "None", "n/a",
   "nan", "null"]

/-- `pd.read_csv` on a textual cell: an empty cell, like every other default
NA token, becomes `NaN` (`none`); anything else is kept as a string. -/
def parseCell (s : String) : Option String :=
  if s ∈ naTokens then none else some s

/-- `to_csv` on a textual value: both `NaN` (`none`) and the empty string
serialize to an empty cell. -/
def printCell : Option String → String
  | none => ""
  | some s => s

/-- Reading one CSV record into a DataFrame row (`pd.read_csv`). -/
def loadRow (c : CsvRecord) : Row :=
  { name := c.name, date := c.date, scale := c.scale, note := parseCell c.note }

/-- Writing one DataFrame row as a CSV record (`DataFrame.to_csv`). -/
def persistRow (r : Row) : CsvRecord :=
  { name := r.name, date := r.date, scale := r.scale, note := printCell r.note }

/-- Reading a whole CSV file into a DataFrame (`pd.read_csv`): the header row
gives the columns, each record gives a row. -/
def read_csv (f : CsvFile) : DataFrame :=
  { cols := f.header, rows := f.records.map loadRow }

/-- `load_data` (src/app.py lines 17-22): if the file exists read it,
otherwise return an empty DataFrame with the fixed column set.  Total: the
missing file is the empty state, not an error. -/
def load_data : FileState → DataFrame
  | none => { cols := columns, rows := [] }
  | some f => read_csv f

/-- `save_data` (src/app.py lines 25-26): overwrite the file with the
DataFrame serialized by `to_csv(index=False)` — header then one record per
row. -/
def save_data (df : DataFrame) : FileState :=
  some { header := df.cols, records := df.rows.map persistRow }

/-- The append step of the submit branch (src/app.py line 76):
`pd.concat([df, new_entry], ignore_index=True)` appends the new row at the
end, keeping prior rows and order. -/
def append_record (df : DataFrame) (r : Row) : DataFrame :=
  { cols := df.cols, rows := df.rows ++ [r] }

/-- Outcome of a form submission shown to the user. -/
inductive SubmitResult where
  | errorEmptyName
  | success
deriving DecidableEq, Repr

/-- The submit branch of `input_page` (src/app.py lines 60-81): an empty name
(`if not user_name`) surfaces a validation error and performs no write;
otherwise the new entry built from the form fields (its note is the Python
string from the text area, possibly empty) is appended to the loaded table
and the result is persisted. -/
def input_page_submit (fs : FileState) (user_name rating_date : String)
    (rating_scale : Int) (notes : String) : FileState × SubmitResult :=
  if user_name = "" then
    (fs, SubmitResult.errorEmptyName)
  else
    let df := load_data fs
    let new_entry : Row :=
      { name := user_name, date := rating_date, scale := rating_scale,
        note := some notes }
    let df2 := append_record df new_entry
    (save_data df2, SubmitResult.success)

/-- The date comparison used to sort the table:
`df.sort_values('Date')` after `pd.to_datetime` (src/app.py lines 95-96);
on `YYYY-MM-DD` strings, string order is chronological order. -/
def dateLe (a b : Row) : Prop :=
  a.date ≤ b.date

instance : DecidableRel dateLe := fun a b =>
  decidable_of_iff (a.date.toList ≤ b.date.toList) String.le_iff_toList_le.symm

instance : IsTotal Row dateLe :=
  ⟨fun a b => le_total a.date b.date⟩

instance : IsTrans Row dateLe :=
  ⟨fun _ _ _ hab hbc => le_trans hab hbc⟩

/-- The sort of the whole loaded table by date (src/app.py line 96).
`sort_values` with the default quicksort kind leaves the order of equal
dates unspecified; the model commits to a stable sort (insertion sort), and
no theorem below depends on the order it picks among equal dates. -/
def sort_by_date (rows : List Row) : List Row :=
  List.insertionSort dateLe rows

/-- The DataFrame held by `analytics_page` after loading and sorting
(src/app.py lines 88-96). -/
def analytics_df (fs : FileState) : DataFrame :=
  let df := load_data fs
  { cols := df.cols, rows := sort_by_date df.rows }

/-- The identity filter (src/app.py line 115):
`df[df['Name'].isin(selected_users)]` keeps exactly the rows whose name is
among the selected ones, in their current order. -/
def filter_by_names (rows : List Row) (ids : List String) : List Row :=
  rows.filter (fun r => ids.contains r.name)

/-- `filtered_df` of `analytics_page` (src/app.py line 115): the sorted
table restricted to the selected names. -/
def filtered_df (fs : FileState) (selected : List String) : List Row :=
  filter_by_names (analytics_df fs).rows selected

/-- The chart series plotted for one user (src/app.py lines 136-138): the
(date, scale) pairs of that user's rows of `filtered_df`, in order. -/
def chart_series (fs : FileState) (selected : List String) (user : String) :
    List (String × Int) :=
  ((filtered_df fs selected).filter (fun r => r.name = user)).map
    (fun r => (r.date, r.scale))

/-- The CSV offered for download (src/app.py line 119):
`df.to_csv(index=False)` of the full (sorted, unfiltered) DataFrame. -/
def export_csv (df : DataFrame) : CsvFile :=
  { header := df.cols, records := df.rows.map persistRow }

/-- The scale values of one user's rows, in order — the group handed to
`groupby('Name')['Scale']` for that name (src/app.py lines 163, 168). -/
def scales_of (rows : List Row) (user : String) : List Int :=
  (rows.filter (fun r => r.name = user)).map (fun r => r.scale)

/-- `aggregate_mean`: `groupby('Name')['Scale'].mean()` (src/app.py
line 163), per name: the arithmetic mean of that name's scales, present
exactly when the name has at least one row. -/
def aggregate_mean (rows : List Row) (user : String) : Option ℚ :=
  let s := scales_of rows user
  if s.isEmpty then none else some ((s.sum : ℚ) / (s.length : ℚ))

/-- `aggregate_max`: `groupby('Name')['Scale'].max()` (src/app.py line 168),
per name: the maximum of that name's scales, present exactly when the name
has at least one row. -/
def aggregate_max (rows : List Row) (user : String) : Option Int :=
  (scales_of rows user).max?

/-- File states reachable from the initial empty state (no file) through the
submit operation alone.  The scale bound on a submission models the
`st.slider("Rate yourself (1-10)", min_value=1, max_value=10, value=5)`
widget (src/app.py line 52), which only ever yields an integer between its
bounds. -/
inductive Reachable : FileState → Prop
  | init : Reachable none
  | submit (fs : FileState) (user_name rating_date notes : String)
      (rating_scale : Int) (hlo : 1 ≤ rating_scale) (hhi : rating_scale ≤ 10)
      (h : Reachable fs) :
      Reachable (input_page_submit fs user_name rating_date rating_scale notes).1

/-- A default row used with `List.getD` to speak about positions. -/
def dummyRow : Row :=
  { name := "", date := "", scale := 0, note := none }

/-- The three-record example table of the spec:
`[(A, date 1, scale 5), (A, date 2, scale 9), (B, date 1, scale 3)]`. -/
def exampleRows : List Row :=
  [ { name := "A", date := "2024-01-01", scale := 5, note := none },
    { name := "A", date := "2024-01-02", scale := 9, note := none },
    { name := "B", date := "2024-01-01", scale := 3, note := none } ]

/-- The example table persisted: the file state whose load gives
`exampleRows`. -/
def exampleFs : FileState :=
  save_data { cols := columns, rows := exampleRows }

/-- Surrounding whitespace removed from a list of characters. -/
def trimChars (l : List Char) : List Char :=
  ((l.dropWhile Char.isWhitespace).reverse.dropWhile Char.isWhitespace).reverse

/-- The word a cell reads as for pandas' special value spellings:
surrounding whitespace removed, one leading sign removed, lowercased. -/
def tokenChars (s : String) : List Char :=
  let t := trimChars s.toList
  let u := match t with
    | c :: rest => if c == '+' || c == '-' then rest else c :: rest
    | [] => []
  u.map Char.toLower

/-- Spellings (lowercased) that the numeric and boolean converters of
`pd.read_csv` recognize as values rather than text: booleans, infinities
and not-a-number. -/
def specialWords : List (List Char) :=
  ["true", "false", "inf", "infinity", "nan"].map String.toList

/-- A sufficient condition, modelled from the conversion rules of
`pd.read_csv`, for a written cell to reload as exactly the same string in
every column context: it is not one of the default NA tokens; it is not a
boolean/infinity/nan spelling up to surrounding whitespace, one sign and
case; and it contains a letter other than `e`/`E`, so it cannot be read as
an integer or exponent-formatted float.  A textual column containing such
a cell is never type-inferred away from text, and such a cell itself
always reloads verbatim. -/
def keptAsText (s : String) : Bool :=
  !(naTokens.contains s) && !(specialWords.contains (tokenChars s)) &&
    s.toList.any (fun c => c.isAlpha && !(c == 'e') && !(c == 'E'))

/-- The serialized `YYYY-MM-DD` shape the form writes (src/app.py
line 70): four digits, hyphen, two digits, hyphen, two digits.  Such a
cell is no NA token and parses as neither a number nor a boolean, so
`pd.read_csv` keeps it as text. -/
def dateShaped (s : String) : Bool :=
  match s.toList with
  | [y1, y2, y3, y4, h1, m1, m2, h2, d1, d2] =>
    y1.isDigit && y2.isDigit && y3.isDigit && y4.isDigit && h1 == '-' &&
      m1.isDigit && m2.isDigit && h2 == '-' && d1.isDigit && d2.isDigit
  | _ => false

/-- An in-memory row all of whose written cells reload verbatim in any
column context: name kept as text (hence non-empty), date in the
serialized date shape, note either missing or kept as text. -/
def rowStable (r : Row) : Bool :=
  keptAsText r.name && dateShaped r.date &&
    (match r.note with
      | none => true
      | some s => keptAsText s)

/-- A persisted record all of whose cells reload the same way in pandas and
in the model: name kept as text, date date-shaped, and the note cell either
one of the NA tokens (a missing value for both) or kept as text. -/
def recordStable (c : CsvRecord) : Bool :=
  keptAsText c.name && dateShaped c.date &&
    (naTokens.contains c.note || keptAsText c.note)

/-- Every record of the persisted file, if there is one, is stable. -/
def fileStable : FileState → Bool
  | none => true
  | some f => f.records.all recordStable

/-- A note value whose persisted cell parses back to it: `none` always
round-trips (it is written as the empty cell, an NA token); `some s` does
exactly when `s` is none of the NA tokens. -/
def noteStable : Option String → Prop
  | none => True
  | some s => s ∉ naTokens

/-! ## Round-trip lemmas for one persisted cell and one row -/

theorem parseCell_noteStable (s : String) : noteStable (parseCell s) := by
  unfold parseCell
  split
  · trivial
  · rename_i h
    exact h

theorem keptAsText_not_naToken (s : String) (h : keptAsText s = true) :
    s ∉ naTokens := by
  simp only [keptAsText, Bool.and_eq_true, Bool.not_eq_true'] at h
  simpa using h.1.1

theorem rowStable_noteStable (r : Row) (h : rowStable r = true) :
    noteStable r.note := by
  obtain ⟨n, d, sc, note⟩ := r
  cases note with
  | none => trivial
  | some t =>
    simp only [rowStable, Bool.and_eq_true] at h
    exact keptAsText_not_naToken t h.2

theorem loadRow_persistRow (r : Row) (h : noteStable r.note) :
    loadRow (persistRow r) = r := by
  obtain ⟨n, d, sc, note⟩ := r
  cases note with
  | none =>
    have h0 : parseCell "" = none := by decide
    simp [loadRow, persistRow, printCell, h0]
  | some t =>
    have ht : t ∉ naTokens := h
    simp [loadRow, persistRow, printCell, parseCell, ht]

/-- Every row produced by `load_data` has a stable note: `pd.read_csv`
only materializes `NaN` or a string that is no NA token. -/
theorem loaded_note_stable (fs : FileState) :
    ∀ r ∈ (load_data fs).rows, noteStable r.note := by
  cases fs with
  | none => intro r hr; simp [load_data] at hr
  | some f =>
    intro r hr
    simp only [load_data, read_csv, List.mem_map] at hr
    obtain ⟨c, _, rfl⟩ := hr
    exact parseCell_noteStable c.note

/-- Persisting and re-reading is the identity on a DataFrame all of whose
notes are stable. -/
theorem load_save_of_stable_notes (df : DataFrame)
    (h : ∀ r ∈ df.rows, noteStable r.note) :
    load_data (save_data df) = df := by
  obtain ⟨cols, rows⟩ := df
  simp only [load_data, save_data, read_csv, List.map_map, DataFrame.mk.injEq,
    true_and]
  induction rows with
  | nil => rfl
  | cons a t ih =>
    simp only [List.map_cons, List.cons.injEq]
    exact ⟨loadRow_persistRow a (h a (by simp)),
      ih (fun r hr => h r (by simp [hr]))⟩

/-- `load_data (save_data df)` row by row: each row goes through one
persist/parse round trip. -/
theorem load_save_rows (df : DataFrame) :
    (load_data (save_data df)).rows =
      df.rows.map (fun r => loadRow (persistRow r)) := by
  simp [load_data, save_data, read_csv, List.map_map, Function.comp]


/-! ## C4: loading with no persisted file -/

/-- C4: when no persisted file exists, `load_data` returns the empty table
with exactly the columns Name, Date, Scale, Note; being a total function,
it does not fail in this case. -/
theorem load_data_missing_file :
    load_data none = { cols := ["Name", "Date", "Scale", "Note"], rows := [] } :=
  rfl

/-! ## C5: empty name on submit -/

/-- C5: submitting with an empty name yields the user-visible validation
error and leaves the persisted file state exactly as it was: no row is
added, nothing is written. -/
theorem submit_empty_name_no_write (fs : FileState) (rating_date : String)
    (rating_scale : Int) (notes : String) :
    input_page_submit fs "" rating_date rating_scale notes =
      (fs, SubmitResult.errorEmptyName) :=
  rfl

/-! ## C1: append, persist, load -/

/-- C1 counterexample: for the record with name "A" (non-empty identity) and
empty-string note, append + persist + load does not reproduce the appended
table — the empty note comes back as a missing value. -/
theorem append_persist_load_ce :
    ("A" : String) ≠ "" ∧
      load_data (save_data (append_record (load_data none)
          { name := "A", date := "2024-01-01", scale := 5, note := some "" })) ≠
        append_record (load_data none)
          { name := "A", date := "2024-01-01", scale := 5, note := some "" } := by
  decide

/-- C1 (amended): for every stable persisted table (each record's written
cells reload verbatim — `fileStable`) and every stable record (name kept as
text, hence a non-empty identity; date in the serialized shape; note
missing or kept as text — `rowStable`), appending the record to the loaded
table, persisting, and loading again yields exactly the loaded table with
the record appended at the end, prior rows unchanged and in order.  A
record whose note is the empty string — or any other NA token, or text
that pandas would re-type — comes back changed instead.  The file-side
guard is not needed by the model proof (the model reloads any file
verbatim); it confines the statement to the files on which the model and
`pd.read_csv` agree, so that the theorem asserts nothing the program does
not do. -/
theorem append_persist_load_roundtrip (fs : FileState) (r : Row)
    (_hfs : fileStable fs = true) (hr : rowStable r = true) :
    load_data (save_data (append_record (load_data fs) r)) =
      append_record (load_data fs) r := by
  apply load_save_of_stable_notes
  intro x hx
  simp only [append_record, List.mem_append, List.mem_singleton] at hx
  rcases hx with hx | rfl
  · exact loaded_note_stable fs x hx
  · exact rowStable_noteStable _ hr

/-- C1 witness: the round trip at a concrete file state and record. -/
theorem append_persist_load_roundtrip_witness :
    fileStable none = true ∧
      rowStable { name := "A", date := "2024-01-01", scale := 5, note := some "fine" } =
        true ∧
      load_data (save_data (append_record (load_data none)
          { name := "A", date := "2024-01-01", scale := 5, note := some "fine" })) =
        append_record (load_data none)
          { name := "A", date := "2024-01-01", scale := 5, note := some "fine" } :=
  ⟨by decide, by decide,
    append_persist_load_roundtrip none
      { name := "A", date := "2024-01-01", scale := 5, note := some "fine" }
      (by decide) (by decide)⟩

/-! ## C3: CSV export round trip -/

/-- A one-row table whose single note is the empty string. -/
def emptyNoteDf : DataFrame :=
  { cols := columns,
    rows := [{ name := "A", date := "2024-01-01", scale := 5, note := some "" }] }

/-- A two-row table whose notes are a non-empty string and a missing value. -/
def exportDemoDf : DataFrame :=
  { cols := columns,
    rows := [{ name := "A", date := "2024-01-01", scale := 5, note := some "good" },
             { name := "B", date := "2024-01-02", scale := 3, note := none }] }

/-- C3 counterexample: the in-memory table holding one record with the
empty-string note does not survive export + load: the note comes back as a
missing value. -/
theorem export_roundtrip_ce :
    read_csv (export_csv emptyNoteDf) ≠ emptyNoteDf := by
  decide

/-- C3 (amended): the exported CSV of the full table round-trips through
load to reproduce the in-memory table exactly — same values, same row
order, same column order — for every table of stable rows, that is, rows
whose written cells `pd.read_csv` keeps verbatim in any column context
(`rowStable`: name kept as text, date in serialized shape, note missing or
kept as text).  A table with an empty-string note (or any other NA-token
note, or textual cells pandas would re-type) reloads changed instead. -/
theorem export_roundtrip (df : DataFrame)
    (h : ∀ r ∈ df.rows, rowStable r = true) :
    read_csv (export_csv df) = df :=
  load_save_of_stable_notes df (fun r hr => rowStable_noteStable r (h r hr))

/-- C3 witness: the export round trip on a concrete two-row table. -/
theorem export_roundtrip_witness :
    (∀ r ∈ exportDemoDf.rows, rowStable r = true) ∧
      read_csv (export_csv exportDemoDf) = exportDemoDf :=
  ⟨by decide, export_roundtrip exportDemoDf (by decide)⟩

/-! ## C9: an empty note does not survive persist + load -/

/-- C9: if some record of the table has the empty string as its note, then
after persisting and loading the record at that position carries a missing
note (`NaN`), and persist followed by load is not the identity on the
table. -/
theorem persist_load_empty_note_nan (df : DataFrame) (i : Nat)
    (hi : i < df.rows.length)
    (hnote : (df.rows.getD i dummyRow).note = some "") :
    ((load_data (save_data df)).rows.getD i dummyRow).note = none ∧
      (load_data (save_data df)).rows ≠ df.rows := by
  have hsome : df.rows[i]? = some (df.rows.getD i dummyRow) := by
    rw [List.getD_eq_getElem?_getD, List.getElem?_eq_getElem hi]
    rfl
  have hnan : ((load_data (save_data df)).rows.getD i dummyRow).note = none := by
    rw [load_save_rows, List.getD_eq_getElem?_getD, List.getElem?_map, hsome]
    show (loadRow (persistRow (df.rows.getD i dummyRow))).note = none
    simp only [loadRow, persistRow, hnote]
    rfl
  refine ⟨hnan, fun heq => ?_⟩
  rw [heq, hnote] at hnan
  exact Option.noConfusion hnan

/-- C9 witness: the empty note of a concrete one-row table loads back as a
missing value. -/
theorem persist_load_empty_note_nan_witness :
    0 < emptyNoteDf.rows.length ∧
      (emptyNoteDf.rows.getD 0 dummyRow).note = some "" ∧
      ((load_data (save_data emptyNoteDf)).rows.getD 0 dummyRow).note = none ∧
      (load_data (save_data emptyNoteDf)).rows ≠ emptyNoteDf.rows :=
  ⟨by decide, by decide,
    persist_load_empty_note_nan emptyNoteDf 0 (by decide) (by decide)⟩

/-! ## C6: aggregates over the example table -/

/-- C6: over the table [(A, date 1, scale 5), (A, date 2, scale 9),
(B, date 1, scale 3)] run through the analytics pipeline with every user
selected, the per-identity aggregates are mean A = 7, mean B = 3,
max A = 9, max B = 3. -/
theorem example_aggregates :
    aggregate_mean (filtered_df exampleFs ["A", "B"]) "A" = some 7 ∧
      aggregate_mean (filtered_df exampleFs ["A", "B"]) "B" = some 3 ∧
      aggregate_max (filtered_df exampleFs ["A", "B"]) "A" = some 9 ∧
      aggregate_max (filtered_df exampleFs ["A", "B"]) "B" = some 3 := by
  have hA : scales_of (filtered_df exampleFs ["A", "B"]) "A" = [5, 9] := by decide
  have hB : scales_of (filtered_df exampleFs ["A", "B"]) "B" = [3] := by decide
  refine ⟨?_, ?_, by decide, by decide⟩
  · simp [aggregate_mean, hA]
    norm_num
  · simp [aggregate_mean, hB]

/-! ## C7: the identity filter -/

/-- C7: for every table and set of identities, the filter returns a
sub-sequence of the table (order preserved) containing each record as often
as the table does when its identity is selected and never otherwise; on the
example table with identities {A} it returns exactly the two A records in
original order. -/
theorem filter_by_names_spec :
    (∀ (rows : List Row) (ids : List String),
        (filter_by_names rows ids).Sublist rows ∧
          ∀ r : Row, (filter_by_names rows ids).count r =
            if r.name ∈ ids then rows.count r else 0) ∧
      filter_by_names exampleRows ["A"] =
        [{ name := "A", date := "2024-01-01", scale := 5, note := none },
         { name := "A", date := "2024-01-02", scale := 9, note := none }] := by
  refine ⟨fun rows ids => ⟨List.filter_sublist rows, fun r => ?_⟩, by decide⟩
  by_cases h : r.name ∈ ids
  · rw [if_pos h]
    exact List.count_filter (by simpa using h)
  · rw [if_neg h]
    refine List.count_eq_zero.mpr fun hmem => ?_
    exact h (by simpa using List.of_mem_filter hmem)

/-! ## C8: every reachable persisted scale lies in [1, 10] -/

/-- C8: in every file state reachable from the empty state through form
submissions alone — each submission's scale coming from the 1-10 slider —
every persisted record's scale is an integer between 1 and 10.  In
particular the record created by each successful submission has its scale
in [1, 10]. -/
theorem reachable_scale_in_range (fs : FileState) (h : Reachable fs) :
    ∀ f : CsvFile, fs = some f → ∀ c ∈ f.records, 1 ≤ c.scale ∧ c.scale ≤ 10 := by
  induction h with
  | init =>
    intro f hf
    exact absurd hf (by simp)
  | submit fs user_name rating_date notes rating_scale hlo hhi hr ih =>
    intro f hf c hc
    by_cases hn : user_name = ""
    · rw [input_page_submit, if_pos hn] at hf
      exact ih f hf c hc
    · simp only [input_page_submit, if_neg hn, save_data, append_record,
        Option.some.injEq] at hf
      subst hf
      simp only [List.map_append, List.map_cons, List.map_nil,
        List.mem_append, List.mem_singleton] at hc
      rcases hc with hc | rfl
      · cases hfs : fs with
        | none =>
          rw [hfs] at hc
          simp [load_data] at hc
        | some f' =>
          rw [hfs] at hc
          simp only [load_data, read_csv, List.map_map, List.mem_map] at hc
          obtain ⟨c', hc', rfl⟩ := hc
          have hb := ih f' hfs c' hc'
          simpa [persistRow, loadRow] using hb
      · exact ⟨hlo, hhi⟩

/-- C8 witness: the state after one submission with scale 5 is reachable and
its single persisted record has scale between 1 and 10. -/
theorem reachable_scale_in_range_witness :
    1 ≤ ({ name := "A", date := "2024-01-01", scale := 5, note := "ok" } : CsvRecord).scale ∧
      ({ name := "A", date := "2024-01-01", scale := 5, note := "ok" } : CsvRecord).scale ≤ 10 :=
  reachable_scale_in_range _
    (Reachable.submit none "A" "2024-01-01" "ok" 5 (by norm_num) (by norm_num)
      Reachable.init)
    { header := columns,
      records := [{ name := "A", date := "2024-01-01", scale := 5, note := "ok" }] }
    (by decide)
    { name := "A", date := "2024-01-01", scale := 5, note := "ok" }
    (by decide)

/-! ## C10: the analytics view is in date order -/

/-- C10: for every non-empty persisted table and every selection of
identities, the analytics view sorts the whole loaded table ascending by
date before filtering: the full sorted table (used for the export) is a
permutation of the loaded table that is ascending by date, and the rendered
filtered table (used for the raw data table and the aggregates) is
ascending by date as well. -/
theorem analytics_sorted_by_date (fs : FileState) (selected : List String)
    (_hne : (load_data fs).rows ≠ []) :
    (analytics_df fs).rows.Pairwise dateLe ∧
      (filtered_df fs selected).Pairwise dateLe ∧
      (analytics_df fs).rows.Perm (load_data fs).rows := by
  have hsorted : ((load_data fs).rows.insertionSort dateLe).Pairwise dateLe :=
    List.sorted_insertionSort dateLe (load_data fs).rows
  exact ⟨hsorted, List.Pairwise.filter _ hsorted,
    List.perm_insertionSort dateLe (load_data fs).rows⟩

/-- C10 witness: the sorted view of the persisted example table. -/
theorem analytics_sorted_by_date_witness :
    (load_data exampleFs).rows ≠ [] ∧
      ((analytics_df exampleFs).rows.Pairwise dateLe ∧
        (filtered_df exampleFs ["A"]).Pairwise dateLe ∧
        (analytics_df exampleFs).rows.Perm (load_data exampleFs).rows) :=
  ⟨by decide, analytics_sorted_by_date exampleFs ["A"] (by decide)⟩

end RatingApp
